import Mathlib

/-!
Verification of `extract_stimulus_heading_for_camera.py`.

Shallow embedding over `ℝ` of: the hard-coded calibration table
`SCREEN2HEADING_DATA`, the circular interpolation closure built by
`create_interpolation_function` (piecewise-linear interpolation of the
cosine and sine components followed by `arctan2`), the per-archive
processing of `process_braidz_file`, and the batch loop of `main`.
Floating-point arithmetic is idealized as real arithmetic.
-/

open Real

namespace SleapVideo

/-- One linear segment used by `scipy.interpolate.interp1d(kind="linear")`:
the straight line through the points `p` and `q`, evaluated at `t`. -/
def seg {α : Type} [Field α] (p q : α × α) (t : α) : α :=
  p.2 + (t - p.1) * (q.2 - p.2) / (q.1 - p.1)

/-- `scipy.interpolate.interp1d(xs, ys, kind="linear", fill_value="extrapolate")`
over a list of points sorted by ascending first component: the segment whose
right node is the first node `≥ t` is used, clamped to the first/last segment
outside the calibrated range (linear extrapolation, no clamping of values). -/
def interp1d {α : Type} [LinearOrderedField α] : List (α × α) → α → α
  | [], _ => 0
  | [_], _ => 0
  | [p, q], t => seg p q t
  | p :: q :: r :: rest, t =>
      if t ≤ q.1 then seg p q t else interp1d (q :: r :: rest) t

/-- `np.arctan2 y x`, embedded as the argument of the complex number
`x + y·i`; its value always lies in `(-π, π]`. -/
noncomputable def atan2 (y x : ℝ) : ℝ := Complex.arg ⟨x, y⟩

/-- The hard-coded `SCREEN2HEADING_DATA` table from the script, as
(screen, heading) pairs in file order. -/
noncomputable def SCREEN2HEADING : List (ℝ × ℝ) :=
  [(0, 2.3513283485530456), (80, 1.2179812647799937), (160, 0.5031545295746856),
   (240, -0.3078141744904855), (320, -0.8746949393526915), (400, -1.5019022477483523),
   (480, -2.185375561680841), (560, -3.0123437340031307), (640, 2.3513283485530456)]

/-- The closure `get_heading` returned by `create_interpolation_function`:
interpolate the cosine and sine components of the table's headings
separately and recover the angle with `arctan2`. -/
noncomputable def get_heading (table : List (ℝ × ℝ)) (screen_value : ℝ) : ℝ :=
  atan2 (interp1d (table.map fun e => (e.1, Real.sin e.2)) screen_value)
        (interp1d (table.map fun e => (e.1, Real.cos e.2)) screen_value)

/-- Construction-time behaviour of `create_interpolation_function`:
`scipy.interpolate.interp1d` raises `ValueError` when given fewer than
2 points and performs no other validation (in particular no duplicate
check). The validated table stands for the returned closure. -/
def create_interpolation_function (table : List (ℝ × ℝ)) :
    Except String (List (ℝ × ℝ)) :=
  if table.length < 2 then .error "x and y arrays must have at least 2 entries"
  else .ok table

/-- One row of the `stim.csv`/`opto.csv` table. `obj_id` and `frame` are
always present; the `Option` fields model presence of the two optional
source columns in the dataframe row. -/
structure Row where
  obj_id : Int
  frame : Int
  stim_position_screen : Option ℝ
  heading : Option ℝ

/-- One row appended to the output CSV by `write_to_csv`. -/
structure OutRow where
  obj_id : Int
  frame : Int
  stim_heading : ℝ

/-- The output CSV file: its name, its header line, and its data rows in
written order. -/
structure OutFile where
  name : List Char
  header : String
  rows : List OutRow

/-- One input archive as seen by `process_braidz_file`: its basename,
whether opening/reading it succeeds, and its `stim.csv` / `opto.csv`
members when present. -/
structure Archive where
  basename : List Char
  readable : Bool
  stim : Option (List Row)
  opto : Option (List Row)

/-- Outcome of `process_braidz_file` on one archive: the output file it
created (if any, possibly partially written) and either the returned
boolean or the message of an uncaught exception. -/
structure ProcOutcome where
  outfile : Option OutFile
  result : Except String Bool

/-- The header line written by `initialize_csv_writer`. -/
def CSV_HEADER : String := "obj_id,frame,stim_heading"

/-- `initialize_csv_writer`: create the file and write the header. -/
def initialize_csv_writer (filename : List Char) : OutFile :=
  ⟨filename, CSV_HEADER, []⟩

/-- `write_to_csv`: append one data row to the file. -/
def write_to_csv (f : OutFile) (o : OutRow) : OutFile :=
  ⟨f.name, f.header, f.rows ++ [o]⟩

/-- Python's `name.split(".")[0]`: the characters before the first dot. -/
def split_first_dot : List Char → List Char
  | [] => []
  | c :: cs => if c = '.' then [] else c :: split_first_dot cs

/-- The output file name computed at line 179 of the script:
`os.path.basename(braidz_path).split(".")[0] + ".csv"`. -/
def output_filename (basename : List Char) : List Char :=
  split_first_dot basename ++ ".csv".toList

/-- Lines 189–194: per-row selection of the raw value. When the row has no
`stim_position_screen` column, `row["heading"]` is read, which raises
`KeyError` if that column is also absent. -/
def rowRaw (r : Row) : Except String ℝ :=
  match r.stim_position_screen with
  | some v => .ok v
  | none =>
    match r.heading with
    | some h => .ok h
    | none => .error "KeyError: heading"

/-- The row loop of lines 186–199: every selected raw value — including one
taken from the `heading` column — is passed through `get_heading_func`
before being written. An uncaught `KeyError` escapes the loop and leaves
the partially written file behind. -/
def processRows (f : ℝ → ℝ) : List Row → OutFile → ProcOutcome
  | [], file => ⟨some file, .ok true⟩
  | r :: rs, file =>
    match rowRaw r with
    | .error e => ⟨some file, .error e⟩
    | .ok v => processRows f rs (write_to_csv file ⟨r.obj_id, r.frame, f v⟩)

/-- `process_braidz_file`: the try/except covers only opening and reading
the archive; `stim.csv` is preferred over `opto.csv`; the output file is
created only after a table has been found. -/
def process_braidz_file (a : Archive) (f : ℝ → ℝ) : ProcOutcome :=
  if a.readable = false then ⟨none, .ok false⟩
  else
    match a.stim with
    | some rows =>
        processRows f rows (initialize_csv_writer (output_filename a.basename))
    | none =>
      match a.opto with
      | some rows =>
          processRows f rows (initialize_csv_writer (output_filename a.basename))
      | none => ⟨none, .ok false⟩

/-- The batch loop of `main` (lines 252–253): return values of
`process_braidz_file` are ignored, but an uncaught exception aborts the
loop; the second component records such an exception. -/
def runBatch (f : ℝ → ℝ) : List Archive → List ProcOutcome × Option String
  | [] => ([], none)
  | a :: rest =>
    match (process_braidz_file a f).result with
    | .error e => ([process_braidz_file a f], some e)
    | .ok _ =>
        (process_braidz_file a f :: (runBatch f rest).1, (runBatch f rest).2)

/-- `main` after argument parsing: the interpolation function is built
before any archive is touched, and a failure there aborts the whole run. -/
noncomputable def runMain (table : List (ℝ × ℝ)) (archives : List Archive) :
    Except String (List ProcOutcome × Option String) :=
  match create_interpolation_function table with
  | .error e => .error e
  | .ok t => .ok (runBatch (get_heading t) archives)

/-- The per-row value that a fully well-formed table yields: the screen
position when that column is present, the heading value otherwise. -/
def rowVal (r : Row) : ℝ :=
  match r.stim_position_screen with
  | some v => v
  | none => r.heading.getD 0

lemma seg_left {α : Type} [Field α] (p q : α × α) : seg p q p.1 = p.2 := by
  simp [seg]

lemma seg_right {α : Type} [LinearOrderedField α] (p q : α × α)
    (h : p.1 < q.1) : seg p q q.1 = q.2 := by
  have hne : q.1 - p.1 ≠ 0 := sub_ne_zero.mpr h.ne'
  have hc : (q.1 - p.1) * (q.2 - p.2) / (q.1 - p.1) = q.2 - p.2 :=
    mul_div_cancel_left₀ _ hne
  simp [seg, hc]

/-- Linear interpolation passes exactly through every node of a table with
strictly increasing first components. -/
lemma interp1d_mem {α : Type} [LinearOrderedField α] :
    ∀ ps : List (α × α), ps.Pairwise (fun a b => a.1 < b.1) →
      ∀ e ∈ ps, 2 ≤ ps.length → interp1d ps e.1 = e.2
  | [], _, e, he, _ => by simp at he
  | [_], _, _, _, hl => by simp at hl
  | [p, q], hs, e, he, _ => by
    have hpq : p.1 < q.1 := (List.pairwise_cons.mp hs).1 q (by simp)
    rcases List.mem_cons.mp he with rfl | he
    · simpa [interp1d] using seg_left e q
    · rcases List.mem_cons.mp he with rfl | he
      · simpa [interp1d] using seg_right p e hpq
      · simp at he
  | p :: q :: r :: rest, hs, e, he, _ => by
    have hpq : p.1 < q.1 := (List.pairwise_cons.mp hs).1 q (by simp)
    rcases List.mem_cons.mp he with rfl | he
    · simp [interp1d, hpq.le, seg_left]
    · rcases List.mem_cons.mp he with rfl | he
      · simp [interp1d, le_refl, seg_right p e hpq]
      · have hq : q.1 < e.1 :=
          (List.pairwise_cons.mp (List.pairwise_cons.mp hs).2).1 e he
        have hnot : ¬ e.1 ≤ q.1 := not_le.mpr hq
        simp only [interp1d, if_neg hnot]
        exact interp1d_mem (q :: r :: rest) (List.pairwise_cons.mp hs).2 e
          (List.mem_cons_of_mem q he) (by simp)

/-- `arctan2` applied to the sine and cosine of an angle in `(-π, π]`
recovers that angle. -/
lemma atan2_sin_cos {θ : ℝ} (h : θ ∈ Set.Ioc (-π) π) :
    atan2 (Real.sin θ) (Real.cos θ) = θ := by
  have h1 : (⟨Real.cos θ, Real.sin θ⟩ : ℂ)
      = Complex.cos θ + Complex.sin θ * Complex.I := by
    apply Complex.ext <;>
      simp [Complex.cos_ofReal_re, Complex.sin_ofReal_re]
  rw [atan2, h1]
  exact Complex.arg_cos_add_sin_mul_I h

/-- `arctan2` always returns a value in `(-π, π]`. -/
lemma atan2_mem_Ioc (y x : ℝ) : atan2 y x ∈ Set.Ioc (-π) π :=
  Complex.arg_mem_Ioc _

/-- A number with six-decimal bounds lies in `(-π, π]`. -/
lemma mem_Ioc_pi {x : ℝ} (h1 : -3.141592 ≤ x) (h2 : x ≤ 3.141592) :
    x ∈ Set.Ioc (-π) π := by
  constructor
  · nlinarith [Real.pi_gt_d6]
  · nlinarith [Real.pi_gt_d6]

/-- Interpolation passes through every table entry whose heading lies in
`(-π, π]`, for tables with at least two strictly increasing screen
positions. -/
lemma get_heading_mem (table : List (ℝ × ℝ)) (h2 : 2 ≤ table.length)
    (hs : table.Pairwise fun a b => a.1 < b.1) (e : ℝ × ℝ) (he : e ∈ table)
    (hIoc : e.2 ∈ Set.Ioc (-π) π) : get_heading table e.1 = e.2 := by
  have hx : interp1d (table.map fun a => (a.1, Real.cos a.2)) e.1
      = Real.cos e.2 := by
    have := interp1d_mem (table.map fun a => (a.1, Real.cos a.2))
      (hs.map _ (by intro a b hab; simpa using hab))
      (e.1, Real.cos e.2) (List.mem_map_of_mem _ he) (by simpa using h2)
    simpa using this
  have hy : interp1d (table.map fun a => (a.1, Real.sin a.2)) e.1
      = Real.sin e.2 := by
    have := interp1d_mem (table.map fun a => (a.1, Real.sin a.2))
      (hs.map _ (by intro a b hab; simpa using hab))
      (e.1, Real.sin e.2) (List.mem_map_of_mem _ he) (by simpa using h2)
    simpa using this
  rw [get_heading, hx, hy]
  exact atan2_sin_cos hIoc

lemma SCREEN2HEADING_sorted :
    SCREEN2HEADING.Pairwise fun a b => a.1 < b.1 := by
  norm_num [SCREEN2HEADING, List.pairwise_cons]

lemma SCREEN2HEADING_len : 2 ≤ SCREEN2HEADING.length := by
  norm_num [SCREEN2HEADING]

lemma get_heading_default_zero :
    get_heading SCREEN2HEADING 0 = 2.3513283485530456 := by
  have := get_heading_mem SCREEN2HEADING SCREEN2HEADING_len SCREEN2HEADING_sorted
    (0, 2.3513283485530456) (by simp [SCREEN2HEADING])
    (mem_Ioc_pi (by norm_num) (by norm_num))
  simpa using this

lemma get_heading_default_320 :
    get_heading SCREEN2HEADING 320 = -0.8746949393526915 := by
  have := get_heading_mem SCREEN2HEADING SCREEN2HEADING_len SCREEN2HEADING_sorted
    (320, -0.8746949393526915) (by simp [SCREEN2HEADING])
    (mem_Ioc_pi (by norm_num) (by norm_num))
  simpa using this

lemma get_heading_default_640 :
    get_heading SCREEN2HEADING 640 = 2.3513283485530456 := by
  have := get_heading_mem SCREEN2HEADING SCREEN2HEADING_len SCREEN2HEADING_sorted
    (640, 2.3513283485530456) (by simp [SCREEN2HEADING])
    (mem_Ioc_pi (by norm_num) (by norm_num))
  simpa using this

/-- On a row carrying at least one source column, `rowRaw` succeeds and
returns `rowVal`. -/
lemma rowRaw_ok (r : Row)
    (h : r.stim_position_screen ≠ none ∨ r.heading ≠ none) :
    rowRaw r = .ok (rowVal r) := by
  cases hsp : r.stim_position_screen with
  | some v => simp [rowRaw, rowVal, hsp]
  | none =>
    cases hh : r.heading with
    | some hv => simp [rowRaw, rowVal, hsp, hh]
    | none => rcases h with h1 | h2
              · exact absurd hsp h1
              · exact absurd hh h2

/-- The row loop on a list of well-formed rows appends one output row per
input row, in order, each one interpolated. -/
lemma processRows_ok (f : ℝ → ℝ) :
    ∀ (rows : List Row) (file : OutFile),
      (∀ r ∈ rows, r.stim_position_screen ≠ none ∨ r.heading ≠ none) →
      processRows f rows file
        = ⟨some ⟨file.name, file.header,
              file.rows ++ rows.map fun r => ⟨r.obj_id, r.frame, f (rowVal r)⟩⟩,
           .ok true⟩
  | [], file, _ => by simp [processRows]
  | r :: rs, file, h => by
    have hraw : rowRaw r = .ok (rowVal r) :=
      rowRaw_ok r (h r (List.mem_cons_self _ _))
    simp only [processRows, hraw]
    rw [processRows_ok f rs (write_to_csv file ⟨r.obj_id, r.frame, f (rowVal r)⟩)
      (fun x hx => h x (List.mem_cons_of_mem _ hx))]
    simp [write_to_csv]

/-- C1: the claim fails on the code. On a row with `heading = 0` and no
`stim_position_screen` column, the comment at line 190 says the heading is
used directly, but line 197 still applies `get_heading_func` to it, so the
written heading is `get_heading(0) = 2.3513283485530456`, not the claimed
unchanged value `0`. -/
theorem C1_heading_not_bypassed :
    process_braidz_file
        ⟨"t.braidz".toList, true, some [⟨1, 10, none, some 0⟩], none⟩
        (get_heading SCREEN2HEADING)
      = ⟨some ⟨output_filename "t.braidz".toList, CSV_HEADER,
              [⟨1, 10, 2.3513283485530456⟩]⟩, .ok true⟩
    ∧ (2.3513283485530456 : ℝ) ≠ 0 := by
  constructor
  · simp [process_braidz_file, processRows, rowRaw, write_to_csv,
      initialize_csv_writer, get_heading_default_zero]
  · norm_num

/-- C3: for every calibration table with at least 2 entries and every real
query, the interpolated heading lies in `(-π, π]`, because the value is
produced by `arctan2`. -/
theorem C3_range (table : List (ℝ × ℝ)) (t : ℝ) (h2 : 2 ≤ table.length) :
    get_heading table t ∈ Set.Ioc (-π) π := by
  rw [get_heading]
  exact atan2_mem_Ioc _ _

/-- Witness for C3 at the default table and a query far outside the
calibrated range. -/
theorem C3_range_witness :
    get_heading SCREEN2HEADING 123456 ∈ Set.Ioc (-π) π :=
  C3_range SCREEN2HEADING 123456 (by norm_num [SCREEN2HEADING])

/-- C6: an archive with neither `stim.csv` nor `opto.csv` produces no
output file at all (the file is created only after a table is found),
returns `False`, and the batch loop continues with the remaining
archives. -/
theorem C6_missing_members (f : ℝ → ℝ) (a : Archive) (rest : List Archive)
    (hs : a.stim = none) (ho : a.opto = none) :
    process_braidz_file a f = ⟨none, .ok false⟩ ∧
    (runBatch f (a :: rest)).1 = ⟨none, .ok false⟩ :: (runBatch f rest).1 ∧
    (runBatch f (a :: rest)).2 = (runBatch f rest).2 := by
  have hp : process_braidz_file a f = ⟨none, .ok false⟩ := by
    simp [process_braidz_file, hs, ho]
  refine ⟨hp, ?_, ?_⟩ <;> simp [runBatch, hp]

/-- Witness for C6: a readable archive with no tabular member, followed by
one more archive in the batch. -/
theorem C6_missing_members_witness :
    process_braidz_file ⟨"e.braidz".toList, true, none, none⟩ (fun x => x)
        = ⟨none, .ok false⟩ ∧
    (runBatch (fun x => x)
        [⟨"e.braidz".toList, true, none, none⟩,
         ⟨"g.braidz".toList, true, some [], none⟩]).1
      = ⟨none, .ok false⟩
          :: (runBatch (fun x => x) [⟨"g.braidz".toList, true, some [], none⟩]).1 ∧
    (runBatch (fun x => x)
        [⟨"e.braidz".toList, true, none, none⟩,
         ⟨"g.braidz".toList, true, some [], none⟩]).2
      = (runBatch (fun x => x) [⟨"g.braidz".toList, true, some [], none⟩]).2 :=
  C6_missing_members (fun x => x) ⟨"e.braidz".toList, true, none, none⟩
    [⟨"g.braidz".toList, true, some [], none⟩] rfl rfl

/-- C7: with the default table the interpolated heading at screen position 0
equals the one at screen position 640: both are the table's shared node
value `2.3513283485530456` (designed period-640 wraparound). -/
theorem C7_periodicity :
    get_heading SCREEN2HEADING 0 = get_heading SCREEN2HEADING 640 := by
  rw [get_heading_default_zero, get_heading_default_640]

/-- C9: when an archive carries both members, `stim.csv` is read and
`opto.csv` is ignored: the outcome is the row loop over the `stim.csv`
rows, whatever `opto.csv` contains. -/
theorem C9_stim_precedence (f : ℝ → ℝ) (a : Archive) (rows optoRows : List Row)
    (hr : a.readable = true) (hs : a.stim = some rows)
    (ho : a.opto = some optoRows) :
    process_braidz_file a f
      = processRows f rows (initialize_csv_writer (output_filename a.basename)) := by
  simp [process_braidz_file, hr, hs]

/-- Witness for C9: an archive whose `stim.csv` is empty and whose
`opto.csv` has a row; the outcome ignores the `opto.csv` row. -/
theorem C9_stim_precedence_witness :
    process_braidz_file
        ⟨"b.braidz".toList, true, some [], some [⟨5, 6, some 160, none⟩]⟩
        (fun x => x)
      = processRows (fun x => x) []
          (initialize_csv_writer (output_filename "b.braidz".toList)) :=
  C9_stim_precedence (fun x => x)
    ⟨"b.braidz".toList, true, some [], some [⟨5, 6, some 160, none⟩]⟩
    [] [⟨5, 6, some 160, none⟩] rfl rfl rfl

/-- C10: when the selected stimulus table is present but empty, processing
succeeds and the output file is still created, containing only the header
and no data rows. -/
theorem C10_empty_table (f : ℝ → ℝ) (a : Archive) (hr : a.readable = true)
    (hs : a.stim = some [] ∨ (a.stim = none ∧ a.opto = some [])) :
    process_braidz_file a f
      = ⟨some ⟨output_filename a.basename, CSV_HEADER, []⟩, .ok true⟩ := by
  rcases hs with h | ⟨h1, h2⟩
  · simp [process_braidz_file, hr, h, processRows, initialize_csv_writer]
  · simp [process_braidz_file, hr, h1, h2, processRows, initialize_csv_writer]

/-- Witness for C10: an archive with a header-only `stim.csv`. -/
theorem C10_empty_table_witness :
    process_braidz_file ⟨"z.braidz".toList, true, some [], none⟩ (fun x => x)
      = ⟨some ⟨output_filename "z.braidz".toList, CSV_HEADER, []⟩, .ok true⟩ :=
  C10_empty_table (fun x => x) ⟨"z.braidz".toList, true, some [], none⟩
    rfl (Or.inl rfl)

/-- C2 counterexample: a 2-entry calibration table whose first heading `4`
lies outside `(-π, π]`. Evaluating at that entry's own screen position `0`
returns `4 - 2π`, not `4`: the claimed pass-through fails for such tables
(by far more than floating-point tolerance). -/
theorem C2_counterexample :
    2 ≤ [((0 : ℝ), 4), (1, 0)].length
    ∧ ((0 : ℝ), (4 : ℝ)) ∈ [((0 : ℝ), 4), (1, 0)]
    ∧ get_heading [((0 : ℝ), 4), (1, 0)] 0 ≠ 4 := by
  refine ⟨by norm_num, by simp, ?_⟩
  have hx : interp1d ([((0 : ℝ), 4), (1, 0)].map fun a => (a.1, Real.cos a.2)) 0
      = Real.cos 4 := by
    simpa [interp1d] using seg_left ((0 : ℝ), Real.cos 4) (1, Real.cos 0)
  have hy : interp1d ([((0 : ℝ), 4), (1, 0)].map fun a => (a.1, Real.sin a.2)) 0
      = Real.sin 4 := by
    simpa [interp1d] using seg_left ((0 : ℝ), Real.sin 4) (1, Real.sin 0)
  have hmem : (4 - 2 * π) ∈ Set.Ioc (-π) π := by
    constructor
    · nlinarith [Real.pi_gt_d6, Real.pi_lt_d2]
    · nlinarith [Real.pi_gt_d6]
  have hval : get_heading [((0 : ℝ), 4), (1, 0)] 0 = 4 - 2 * π := by
    rw [get_heading, hx, hy, ← Real.cos_sub_two_pi 4, ← Real.sin_sub_two_pi 4]
    exact atan2_sin_cos hmem
  rw [hval]
  nlinarith [Real.pi_gt_d6]

/-- C2 (amended): for every calibration table with at least 2 entries and
strictly increasing screen positions, interpolation passes exactly through
every entry whose heading lies in `(-π, π]`; in particular the default
table yields `2.3513283485530456` at screen position 0 and
`-0.8746949393526915` at 320. -/
theorem C2_pass_through :
    (∀ table : List (ℝ × ℝ), 2 ≤ table.length →
        table.Pairwise (fun a b => a.1 < b.1) →
        ∀ e ∈ table, e.2 ∈ Set.Ioc (-π) π → get_heading table e.1 = e.2)
    ∧ get_heading SCREEN2HEADING 0 = 2.3513283485530456
    ∧ get_heading SCREEN2HEADING 320 = -0.8746949393526915 :=
  ⟨fun table h2 hs e he hIoc => get_heading_mem table h2 hs e he hIoc,
   get_heading_default_zero, get_heading_default_320⟩

/-- Witness for C2 at the concrete table `[(0, 0), (80, 1)]` and its second
entry. -/
theorem C2_pass_through_witness :
    get_heading [((0 : ℝ), 0), (80, 1)] 80 = 1 := by
  have := C2_pass_through.1 [((0 : ℝ), 0), (80, 1)] (by norm_num)
    (by norm_num [List.pairwise_cons]) ((80 : ℝ), (1 : ℝ))
    (List.mem_cons_of_mem _ (List.mem_cons_self _ _))
    (mem_Ioc_pi (by norm_num) (by norm_num))
  simpa using this

/-- C4 counterexample: a table with a duplicated screen position `0` is
accepted at construction time — `create_interpolation_function` performs no
duplicate check, so the claimed construction-time failure does not occur. -/
theorem C4_counterexample :
    create_interpolation_function [((0 : ℝ), 1), (0, 2)]
      = .ok [((0 : ℝ), 1), (0, 2)] := by
  norm_num [create_interpolation_function]

/-- C4 (amended): with fewer than 2 calibration entries the run fails at
construction time — before any archive is processed, since `main` builds
the interpolation function first — while duplicate screen positions are not
rejected. -/
theorem C4_insufficient_fails_fast :
    (∀ (table : List (ℝ × ℝ)) (archives : List Archive), table.length < 2 →
        runMain table archives
          = .error "x and y arrays must have at least 2 entries")
    ∧ create_interpolation_function [((0 : ℝ), 1), (0, 2)]
        = .ok [((0 : ℝ), 1), (0, 2)] := by
  constructor
  · intro table archives hlen
    rw [runMain]
    simp [create_interpolation_function, hlen]
  · norm_num [create_interpolation_function]

/-- Witness for C4: a one-row calibration table aborts the run even though
a processable archive is waiting in the batch. -/
theorem C4_insufficient_fails_fast_witness :
    runMain [((0 : ℝ), 1)] [⟨"a.braidz".toList, true, some [], none⟩]
      = .error "x and y arrays must have at least 2 entries" :=
  C4_insufficient_fails_fast.1 [((0 : ℝ), 1)]
    [⟨"a.braidz".toList, true, some [], none⟩] (by norm_num)

/-- C5 counterexample: the row loop sits outside the try/except of
`process_braidz_file`, and the batch loop of `main` has no handler, so the
`KeyError` raised by a row lacking both source fields aborts the batch: the
second archive is never processed and the partially written output file of
the first is left behind. -/
theorem C5_counterexample :
    runBatch (get_heading SCREEN2HEADING)
        [⟨"bad.braidz".toList, true, some [⟨1, 2, none, none⟩], none⟩,
         ⟨"good.braidz".toList, true, some [], none⟩]
      = ([⟨some ⟨output_filename "bad.braidz".toList, CSV_HEADER, []⟩,
            .error "KeyError: heading"⟩], some "KeyError: heading") := by
  simp [runBatch, process_braidz_file, processRows, rowRaw,
    initialize_csv_writer]

/-- C5 (amended): a failure while opening or reading an archive (or a
missing tabular member) is caught and reported inside
`process_braidz_file`, so the batch continues with the remaining archives;
but a malformed row lacking both source fields raises an uncaught
`KeyError` that aborts the remaining batch. -/
theorem C5_read_failure_skips (f : ℝ → ℝ) (a : Archive) (rest : List Archive) :
    (a.readable = false →
      (runBatch f (a :: rest)).1 = ⟨none, .ok false⟩ :: (runBatch f rest).1 ∧
      (runBatch f (a :: rest)).2 = (runBatch f rest).2)
    ∧ (∀ (r : Row) (rs : List Row), a.readable = true →
        a.stim = some (r :: rs) → r.stim_position_screen = none →
        r.heading = none → (runBatch f (a :: rest)).1.length = 1) := by
  constructor
  · intro hr
    have hp : process_braidz_file a f = ⟨none, .ok false⟩ := by
      simp [process_braidz_file, hr]
    constructor <;> simp [runBatch, hp]
  · intro r rs hr hs hscreen hheading
    have hp : process_braidz_file a f
        = ⟨some (initialize_csv_writer (output_filename a.basename)),
           .error "KeyError: heading"⟩ := by
      simp [process_braidz_file, hr, hs, processRows, rowRaw, hscreen, hheading]
    simp [runBatch, hp]

/-- Witness for C5: an unreadable archive is skipped and the batch
continues; a malformed row aborts a two-archive batch after the first. -/
theorem C5_read_failure_skips_witness :
    ((runBatch (fun x => x)
        [⟨"u.braidz".toList, false, none, none⟩,
         ⟨"g.braidz".toList, true, some [], none⟩]).1
      = ⟨none, .ok false⟩
          :: (runBatch (fun x => x) [⟨"g.braidz".toList, true, some [], none⟩]).1)
    ∧ (runBatch (fun x => x)
        [⟨"m.braidz".toList, true, some [⟨1, 2, none, none⟩], none⟩,
         ⟨"g.braidz".toList, true, some [], none⟩]).1.length = 1 := by
  constructor
  · exact ((C5_read_failure_skips (fun x => x)
      ⟨"u.braidz".toList, false, none, none⟩
      [⟨"g.braidz".toList, true, some [], none⟩]).1 rfl).1
  · exact (C5_read_failure_skips (fun x => x)
      ⟨"m.braidz".toList, true, some [⟨1, 2, none, none⟩], none⟩
      [⟨"g.braidz".toList, true, some [], none⟩]).2
      ⟨1, 2, none, none⟩ [] rfl rfl rfl rfl

/-- C8 counterexample: line 179 takes the basename up to the FIRST dot, not
up to the last one, so the archive `a.b.braidz` yields the output name
`a.csv`, not the claimed `a.b.csv`. -/
theorem C8_counterexample :
    output_filename "a.b.braidz".toList = "a.csv".toList
    ∧ output_filename "a.b.braidz".toList ≠ "a.b.csv".toList := by
  constructor
  · rfl
  · decide

/-- C8 (amended): for every successfully processed archive — its table read
from `stim.csv`, or from `opto.csv` when `stim.csv` is absent — exactly one
output file is produced, named by the basename truncated at its first dot
with `.csv` appended, starting with the header `obj_id,frame,stim_heading`
and followed by exactly one row per input row, in input order. -/
theorem C8_output_shape (f : ℝ → ℝ) (a : Archive) (rows : List Row)
    (hr : a.readable = true)
    (hs : a.stim = some rows ∨ (a.stim = none ∧ a.opto = some rows))
    (hok : ∀ r ∈ rows, r.stim_position_screen ≠ none ∨ r.heading ≠ none) :
    process_braidz_file a f
      = ⟨some ⟨split_first_dot a.basename ++ ".csv".toList, CSV_HEADER,
            rows.map fun r => ⟨r.obj_id, r.frame, f (rowVal r)⟩⟩, .ok true⟩ := by
  have h1 := processRows_ok f rows
    (initialize_csv_writer (output_filename a.basename)) hok
  have h2 : process_braidz_file a f
      = processRows f rows (initialize_csv_writer (output_filename a.basename)) := by
    rcases hs with h | ⟨hstim, hopto⟩
    · simp [process_braidz_file, hr, h]
    · simp [process_braidz_file, hr, hstim, hopto]
  rw [h2, h1]
  simp [initialize_csv_writer, output_filename]

/-- Witness for C8: a two-row `stim.csv` archive whose basename holds two
dots, and a one-row archive whose table comes from `opto.csv`. -/
theorem C8_output_shape_witness :
    process_braidz_file
        ⟨"w.x.braidz".toList, true,
         some [⟨7, 8, some 160, none⟩, ⟨7, 9, some 320, none⟩], none⟩
        (fun x => x)
      = ⟨some ⟨split_first_dot "w.x.braidz".toList ++ ".csv".toList, CSV_HEADER,
            [⟨7, 8, (160 : ℝ)⟩, ⟨7, 9, (320 : ℝ)⟩]⟩, .ok true⟩
    ∧ process_braidz_file
        ⟨"o.braidz".toList, true, none, some [⟨3, 4, some 240, none⟩]⟩
        (fun x => x)
      = ⟨some ⟨split_first_dot "o.braidz".toList ++ ".csv".toList, CSV_HEADER,
            [⟨3, 4, (240 : ℝ)⟩]⟩, .ok true⟩ := by
  constructor
  · have := C8_output_shape (fun x => x)
      ⟨"w.x.braidz".toList, true,
       some [⟨7, 8, some 160, none⟩, ⟨7, 9, some 320, none⟩], none⟩
      [⟨7, 8, some 160, none⟩, ⟨7, 9, some 320, none⟩] rfl (Or.inl rfl)
      (by intro r hrr
          rcases List.mem_cons.mp hrr with rfl | hrr
          · left; simp
          · rcases List.mem_cons.mp hrr with rfl | hrr
            · left; simp
            · simp at hrr)
    simpa [rowVal] using this
  · have := C8_output_shape (fun x => x)
      ⟨"o.braidz".toList, true, none, some [⟨3, 4, some 240, none⟩]⟩
      [⟨3, 4, some 240, none⟩] rfl (Or.inr ⟨rfl, rfl⟩)
      (by intro r hrr
          rcases List.mem_cons.mp hrr with rfl | hrr
          · left; simp
          · simp at hrr)
    simpa [rowVal] using this

end SleapVideo
